import Mathlib

/-!
Shallow embedding of `drgn_tools/workqueue_lockup.py` and
`drgn_tools/inflightio.py`.

The two scripts are traversal-and-format layers over an external kernel
introspection library.  The external surface (device / CPU / worker
enumeration, field reads, symbol lookup) is modelled as explicit data
carried by a program-state structure; every scalar the scripts read from
kernel memory appears as a field of that data.  Printing is modelled as
emission of structured output lines: each `print` in the source becomes
one constructor application carrying exactly the data the source
interpolates into the format string (external string formatters such as
`timestamp_str` and `escape_ascii_string` are treated as injective
renderers, so a line is identified by what is passed to them).
-/

namespace DrgnTools

/-! ## Data model for `workqueue_lockup.py` -/

/-- A kernel task as read by the scanner: `task.pid`, `task.value_()`,
`task.comm`, `task.prio`, `task_cpu(task)` and `task_lastrun2now(task)`. -/
structure Task where
  pid : Nat
  addr : Nat
  comm : String
  prio : Int
  cpu : Nat
  runtime : Nat
  deriving Repr, DecidableEq

/-- A non-null `struct pool_workqueue` reference: its pointer value and the
result of reading `pwq.wq.name` (`none` models an exception raised while
reading/escaping the name, which the source catches). -/
structure Pwq where
  addr : Nat
  wqName : Option String
  deriving Repr, DecidableEq

/-- A `struct worker`: `current_work` and `current_func` pointer values
(0 = NULL), `current_pwq` (`none` = NULL pointer) and the owning task. -/
structure Worker where
  current_work : Nat
  current_func : Nat
  current_pwq : Option Pwq
  task : Task
  deriving Repr, DecidableEq

/-- A `struct worker_pool` with its id and worker list
(`_iter_worker_pool_workers`). -/
structure WorkerPool where
  id : Nat
  workers : List Worker
  deriving Repr, DecidableEq

/-- One online CPU: its number, the task currently running on it
(`cpu_curr`) and its worker pools (`for_each_cpu_worker_pool`). -/
structure CpuState where
  cpu : Nat
  curr : Task
  pools : List WorkerPool
  deriving Repr, DecidableEq

/-- The program state the scanner consumes: the optional
`wq_watchdog_thresh` symbol value, the symbol table used by
`prog.symbol(...)` on function pointers, and the online CPUs. -/
structure WqProg where
  wq_watchdog_thresh : Option Nat
  symbolName : Nat → Option String
  cpus : List CpuState

/-- One line of scanner output. -/
inductive Line where
  | threshHeader (seconds : Nat)
  | blank
  | blockHeader (cpu : Nat) (poolId : Nat) (wqName : String) (pwqAddr : Nat)
  | currentTaskOnCpu (pid : Nat) (taskAddr : Nat) (prio : Int)
      (schedClass : String) (comm : String)
  | currentWorkerTask (pid : Nat) (taskAddr : Nat) (prio : Int)
      (schedClass : String) (comm : String)
  | workLine (workAddr : Nat) (funcName : String)
  | runtimeLine (runtimeNs : Nat)
  | calltraceHeader
  | backtrace (taskAddr : Nat)
  | summaryNotDetected
  | summaryDetected (count : Nat)
  deriving Repr, DecidableEq

/-- `_get_watchdog_thresh_seconds`: read `wq_watchdog_thresh`, defaulting
to 30 on `KeyError` (absent symbol). -/
def get_watchdog_thresh_seconds (p : WqProg) : Nat :=
  match p.wq_watchdog_thresh with
  | some v => v
  | none => 30

/-- `_task_sched_class`: "RT" when `prio < 100`, else "CFS". -/
def task_sched_class (t : Task) : String :=
  if t.prio < 100 then "RT" else "CFS"

/-- `_current_work_func_name`: symbol lookup on `worker.current_func`,
falling back to an `UNKNOWN: 0x<addr>` placeholder on `LookupError`. -/
def current_work_func_name (p : WqProg) (w : Worker) : String :=
  match p.symbolName w.current_func with
  | some n => n
  | none => "UNKNOWN: 0x" ++ String.mk (Nat.toDigits 16 w.current_func)

/-- `_print_cpu_current_task`: the CURRENT_TASK_ON_CPU line for the task
currently scheduled on the worker's CPU. -/
def print_cpu_current_task (curr : Task) : Line :=
  Line.currentTaskOnCpu curr.pid curr.addr curr.prio (task_sched_class curr)
    curr.comm

/-- The diagnostic block printed for one stuck worker, in source order:
block header (CPU of the worker's task, pool id, workqueue name resolved
through `current_pwq` with "unknown" fallback, `pwq.value_()` which is 0
for a NULL pwq), the CPU's current task, a blank line, the worker task
line, the work/function line, the runtime line, the calltrace header, the
stack unwind, and a trailing blank line. -/
def workerBlock (p : WqProg) (curr : Task) (poolId : Nat) (w : Worker) :
    List Line :=
  let wq_name :=
    match w.current_pwq with
    | none => "unknown"
    | some pwq =>
      match pwq.wqName with
      | some s => s
      | none => "unknown"
  let pwqAddr :=
    match w.current_pwq with
    | none => 0
    | some pwq => pwq.addr
  [Line.blockHeader w.task.cpu poolId wq_name pwqAddr,
   print_cpu_current_task curr,
   Line.blank,
   Line.currentWorkerTask w.task.pid w.task.addr w.task.prio
     (task_sched_class w.task) w.task.comm,
   Line.workLine w.current_work (current_work_func_name p w),
   Line.runtimeLine w.task.runtime,
   Line.calltraceHeader,
   Line.backtrace w.task.addr,
   Line.blank]

/-- The body of the innermost loop of `scan_workqueue_lockup`: skip the
worker when `current_work` is NULL, skip when `runtime < thresh_ns`,
otherwise bump `lockup_count` and print the diagnostic block. -/
def processWorker (p : WqProg) (tns : Nat) (curr : Task) (poolId : Nat)
    (acc : Nat × List Line) (w : Worker) : Nat × List Line :=
  if w.current_work = 0 then acc
  else if w.task.runtime < tns then acc
  else (acc.1 + 1, acc.2 ++ workerBlock p curr poolId w)

/-- The per-pool loop: iterate the pool's workers. -/
def processPool (p : WqProg) (tns : Nat) (curr : Task)
    (acc : Nat × List Line) (pool : WorkerPool) : Nat × List Line :=
  pool.workers.foldl (processWorker p tns curr pool.id) acc

/-- The per-CPU loop: iterate the CPU's worker pools. -/
def processCpu (p : WqProg) (tns : Nat) (acc : Nat × List Line)
    (c : CpuState) : Nat × List Line :=
  c.pools.foldl (processPool p tns c.curr) acc

/-- `scan_workqueue_lockup`: print the threshold header and a blank line,
scan every online CPU's pools' workers accumulating `lockup_count` and the
diagnostic blocks, then print exactly one summary line. -/
def scan_workqueue_lockup (p : WqProg) : List Line :=
  let ts := get_watchdog_thresh_seconds p
  let tns := ts * 1000000000
  let res := p.cpus.foldl (processCpu p tns)
    (0, [Line.threshHeader ts, Line.blank])
  res.2 ++
    (if res.1 = 0 then [Line.summaryNotDetected]
     else [Line.summaryDetected res.1])

/-! ## Derived views of the scan, for stating properties -/

/-- The reporting condition applied by the scan to one worker: a non-NULL
current work item whose runtime is not below the threshold. -/
def triggers (tns : Nat) (w : Worker) : Bool :=
  decide (w.current_work ≠ 0) && decide (tns ≤ w.task.runtime)

/-- The watchdog threshold in nanoseconds as computed by the scan. -/
def wqThreshNs (p : WqProg) : Nat :=
  get_watchdog_thresh_seconds p * 1000000000

/-- All workers of all pools of one CPU. -/
def cpuWorkers (c : CpuState) : List Worker :=
  c.pools.flatMap (fun pool => pool.workers)

/-- All workers the scan visits, in visit order. -/
def allWorkers (p : WqProg) : List Worker :=
  p.cpus.flatMap cpuWorkers

/-- The diagnostic blocks contributed by one pool. -/
def poolBlocks (p : WqProg) (tns : Nat) (curr : Task) (pool : WorkerPool) :
    List Line :=
  pool.workers.flatMap
    (fun w => cond (triggers tns w) (workerBlock p curr pool.id w) [])

/-- The diagnostic blocks contributed by one CPU. -/
def cpuBlocks (p : WqProg) (tns : Nat) (c : CpuState) : List Line :=
  c.pools.flatMap (poolBlocks p tns c.curr)

/-- All diagnostic blocks of the scan, in print order. -/
def allBlocks (p : WqProg) (tns : Nat) : List Line :=
  p.cpus.flatMap (cpuBlocks p tns)

/-- Recognise the first line of a diagnostic block. -/
def isBlockHeader : Line → Bool
  | Line.blockHeader _ _ _ _ => true
  | _ => false

/-- Recognise either summary line. -/
def isSummary : Line → Bool
  | Line.summaryNotDetected => true
  | Line.summaryDetected _ => true
  | _ => false

/-- Number of diagnostic blocks in an output fragment. -/
def numDiagBlocks (ls : List Line) : Nat := ls.countP isBlockHeader

/-- Number of summary lines in an output fragment. -/
def numSummaries (ls : List Line) : Nat := ls.countP isSummary

theorem processWorker_eq (p : WqProg) (tns : Nat) (curr : Task)
    (poolId : Nat) (acc : Nat × List Line) (w : Worker) :
    processWorker p tns curr poolId acc w =
      (acc.1 + cond (triggers tns w) 1 0,
       acc.2 ++ cond (triggers tns w) (workerBlock p curr poolId w) []) := by
  by_cases h1 : w.current_work = 0
  · simp [processWorker, triggers, h1]
  · by_cases h2 : w.task.runtime < tns
    · simp [processWorker, triggers, h1, h2, Nat.not_le.mpr h2]
    · simp [processWorker, triggers, h1, h2, Nat.not_lt.mp h2]

theorem foldl_processWorker (p : WqProg) (tns : Nat) (curr : Task)
    (poolId : Nat) (ws : List Worker) :
    ∀ acc : Nat × List Line,
      ws.foldl (processWorker p tns curr poolId) acc =
        (acc.1 + ws.countP (triggers tns),
         acc.2 ++ ws.flatMap
           (fun w => cond (triggers tns w) (workerBlock p curr poolId w) [])) := by
  induction ws with
  | nil => intro acc; simp
  | cons w rest ih =>
    intro acc
    rw [List.foldl_cons, processWorker_eq, ih]
    cases htr : triggers tns w
    · simp [List.countP_cons, htr]
    · simp [List.countP_cons, htr]
      omega

theorem foldl_processPool (p : WqProg) (tns : Nat) (curr : Task)
    (pools : List WorkerPool) :
    ∀ acc : Nat × List Line,
      pools.foldl (processPool p tns curr) acc =
        (acc.1 + (pools.flatMap (fun pool => pool.workers)).countP (triggers tns),
         acc.2 ++ pools.flatMap (poolBlocks p tns curr)) := by
  induction pools with
  | nil => intro acc; simp
  | cons pool rest ih =>
    intro acc
    rw [List.foldl_cons]
    show rest.foldl (processPool p tns curr)
        (pool.workers.foldl (processWorker p tns curr pool.id) acc) = _
    rw [foldl_processWorker, ih]
    simp [poolBlocks, List.countP_append, Nat.add_assoc]

theorem foldl_processCpu (p : WqProg) (tns : Nat) (cpus : List CpuState) :
    ∀ acc : Nat × List Line,
      cpus.foldl (processCpu p tns) acc =
        (acc.1 + (cpus.flatMap cpuWorkers).countP (triggers tns),
         acc.2 ++ cpus.flatMap (cpuBlocks p tns)) := by
  induction cpus with
  | nil => intro acc; simp
  | cons c rest ih =>
    intro acc
    rw [List.foldl_cons]
    show rest.foldl (processCpu p tns)
        (c.pools.foldl (processPool p tns c.curr) acc) = _
    rw [foldl_processPool, ih]
    simp [cpuWorkers, cpuBlocks, List.countP_append, Nat.add_assoc]

/-- Structural form of the scan: header, blocks, one summary. -/
theorem scan_eq (p : WqProg) :
    scan_workqueue_lockup p =
      [Line.threshHeader (get_watchdog_thresh_seconds p), Line.blank] ++
        allBlocks p (wqThreshNs p) ++
        (if (allWorkers p).countP (triggers (wqThreshNs p)) = 0 then
          [Line.summaryNotDetected]
         else
          [Line.summaryDetected
            ((allWorkers p).countP (triggers (wqThreshNs p)))]) := by
  show (List.foldl (processCpu p (get_watchdog_thresh_seconds p * 1000000000))
      (0, [Line.threshHeader (get_watchdog_thresh_seconds p), Line.blank])
      p.cpus).2 ++ _ = _
  rw [foldl_processCpu]
  simp only [allBlocks, allWorkers, wqThreshNs, Nat.zero_add, List.append_assoc,
    List.cons_append, List.nil_append]

/-! ## Counting lemmas for the scan output -/

theorem countP_blockHeader_workerBlock (p : WqProg) (curr : Task)
    (poolId : Nat) (w : Worker) :
    (workerBlock p curr poolId w).countP isBlockHeader = 1 := by
  simp [workerBlock, print_cpu_current_task, isBlockHeader, List.countP_cons]

theorem isSummary_false_of_mem_workerBlock (p : WqProg) (curr : Task)
    (poolId : Nat) (w : Worker) (l : Line)
    (hl : l ∈ workerBlock p curr poolId w) : isSummary l = false := by
  simp [workerBlock, print_cpu_current_task] at hl
  rcases hl with h | h | h | h | h | h | h | h | h <;> subst h <;> rfl

theorem countP_blockHeader_workers (p : WqProg) (tns : Nat) (curr : Task)
    (poolId : Nat) (ws : List Worker) :
    (ws.flatMap
        (fun w => cond (triggers tns w) (workerBlock p curr poolId w) [])).countP
        isBlockHeader =
      ws.countP (triggers tns) := by
  induction ws with
  | nil => simp
  | cons w rest ih =>
    cases htr : triggers tns w
    · simp [htr, List.countP_append, List.countP_cons, ih]
    · simp [htr, List.countP_append, List.countP_cons, ih,
        countP_blockHeader_workerBlock]
      omega

theorem countP_blockHeader_pools (p : WqProg) (tns : Nat) (curr : Task)
    (pools : List WorkerPool) :
    ((pools.flatMap (poolBlocks p tns curr)).countP isBlockHeader) =
      (pools.flatMap (fun pool => pool.workers)).countP (triggers tns) := by
  induction pools with
  | nil => simp
  | cons pool rest ih =>
    simp [poolBlocks, List.countP_append, ih, countP_blockHeader_workers]

theorem countP_blockHeader_cpus (p : WqProg) (tns : Nat)
    (cpus : List CpuState) :
    ((cpus.flatMap (cpuBlocks p tns)).countP isBlockHeader) =
      (cpus.flatMap cpuWorkers).countP (triggers tns) := by
  induction cpus with
  | nil => simp
  | cons c rest ih =>
    simp [cpuBlocks, cpuWorkers, List.countP_append, ih,
      countP_blockHeader_pools]

/-- The number of diagnostic blocks the scan prints equals the number of
workers satisfying the reporting condition. -/
theorem numDiagBlocks_scan (p : WqProg) :
    numDiagBlocks (scan_workqueue_lockup p) =
      (allWorkers p).countP (triggers (wqThreshNs p)) := by
  rw [scan_eq]
  unfold numDiagBlocks allBlocks allWorkers
  rw [List.countP_append, List.countP_append, countP_blockHeader_cpus]
  split <;> simp [isBlockHeader, List.countP_cons]

theorem isSummary_false_allBlocks (p : WqProg) (tns : Nat) (l : Line)
    (hl : l ∈ allBlocks p tns) : isSummary l = false := by
  simp [allBlocks, cpuBlocks, poolBlocks, List.mem_flatMap] at hl
  obtain ⟨c, _, pool, _, w, _, hmem⟩ := hl
  cases htr : triggers tns w <;> rw [htr] at hmem
  · simp at hmem
  · exact isSummary_false_of_mem_workerBlock p c.curr pool.id w l hmem

/-- The scan prints exactly one summary line. -/
theorem numSummaries_scan (p : WqProg) :
    numSummaries (scan_workqueue_lockup p) = 1 := by
  rw [scan_eq]
  unfold numSummaries
  rw [List.countP_append, List.countP_append]
  have hz : (allBlocks p (wqThreshNs p)).countP isSummary = 0 :=
    List.countP_eq_zero.mpr (by
      intro l hl
      simp [isSummary_false_allBlocks p (wqThreshNs p) l hl])
  rw [hz]
  split <;> simp [isSummary, List.countP_cons]

theorem getLast?_cons_append {α : Type} :
    ∀ (l : List α) (a b : α), (b :: (l ++ [a])).getLast? = some a := by
  intro l
  induction l with
  | nil => intro a b; rfl
  | cons x xs ih =>
    intro a b
    rw [List.cons_append, List.getLast?_cons_cons]
    exact ih a x

/-- The summary line is the last line of the scan output. -/
theorem scan_getLast (p : WqProg) :
    (scan_workqueue_lockup p).getLast? =
      some
        (if (allWorkers p).countP (triggers (wqThreshNs p)) = 0 then
          Line.summaryNotDetected
         else
          Line.summaryDetected
            ((allWorkers p).countP (triggers (wqThreshNs p)))) := by
  rw [scan_eq]
  split
  · simp only [List.append_assoc, List.cons_append, List.nil_append,
      List.getLast?_cons_cons]
    exact getLast?_cons_append _ _ _
  · simp only [List.append_assoc, List.cons_append, List.nil_append,
      List.getLast?_cons_cons]
    exact getLast?_cons_append _ _ _

/-- The threshold header is the first line of the scan output. -/
theorem scan_head (p : WqProg) :
    (scan_workqueue_lockup p).head? =
      some (Line.threshHeader (get_watchdog_thresh_seconds p)) := by
  rw [scan_eq]; rfl

/-! ## Idle workers are invisible to the scan -/

/-- Drop the workers whose `current_work` pointer is NULL. -/
def filterIdleWorkers (ws : List Worker) : List Worker :=
  ws.filter fun w => w.current_work != 0

/-- A pool with its idle workers dropped. -/
def dropIdlePool (pool : WorkerPool) : WorkerPool :=
  { pool with workers := filterIdleWorkers pool.workers }

/-- A CPU with every pool's idle workers dropped. -/
def dropIdleCpu (c : CpuState) : CpuState :=
  { c with pools := c.pools.map dropIdlePool }

/-- The program state with every idle worker dropped. -/
def removeIdle (p : WqProg) : WqProg :=
  { p with cpus := p.cpus.map dropIdleCpu }

theorem triggers_false_of_idle (tns : Nat) (w : Worker)
    (h : w.current_work = 0) : triggers tns w = false := by
  simp [triggers, h]

theorem countP_triggers_filterIdle (tns : Nat) (ws : List Worker) :
    (filterIdleWorkers ws).countP (triggers tns) =
      ws.countP (triggers tns) := by
  induction ws with
  | nil => rfl
  | cons w rest ih =>
    by_cases h : w.current_work = 0
    · simp only [filterIdleWorkers] at ih ⊢
      simp [List.filter_cons, h, List.countP_cons,
        triggers_false_of_idle tns w h, ih]
    · simp only [filterIdleWorkers] at ih ⊢
      simp [List.filter_cons, h, List.countP_cons, ih]

theorem blocks_filterIdle (p : WqProg) (tns : Nat) (curr : Task)
    (poolId : Nat) (ws : List Worker) :
    (filterIdleWorkers ws).flatMap
        (fun w => cond (triggers tns w) (workerBlock p curr poolId w) []) =
      ws.flatMap
        (fun w => cond (triggers tns w) (workerBlock p curr poolId w) []) := by
  induction ws with
  | nil => rfl
  | cons w rest ih =>
    by_cases h : w.current_work = 0
    · simp only [filterIdleWorkers] at ih ⊢
      simp [List.filter_cons, h, triggers_false_of_idle tns w h, ih]
    · simp only [filterIdleWorkers] at ih ⊢
      simp [List.filter_cons, h, ih]

theorem countP_workers_pools_dropIdle (tns : Nat) (pools : List WorkerPool) :
    (((pools.map dropIdlePool).flatMap (fun pool => pool.workers)).countP
        (triggers tns)) =
      ((pools.flatMap (fun pool => pool.workers)).countP (triggers tns)) := by
  induction pools with
  | nil => rfl
  | cons pool rest ih =>
    simp [dropIdlePool, List.countP_append, countP_triggers_filterIdle, ih]

theorem countP_workers_cpus_dropIdle (tns : Nat) (cpus : List CpuState) :
    (((cpus.map dropIdleCpu).flatMap cpuWorkers).countP (triggers tns)) =
      ((cpus.flatMap cpuWorkers).countP (triggers tns)) := by
  induction cpus with
  | nil => rfl
  | cons c rest ih =>
    simp [cpuWorkers, dropIdleCpu, List.countP_append,
      countP_workers_pools_dropIdle, ih]

theorem poolBlocks_dropIdle (p : WqProg) (tns : Nat) (curr : Task)
    (pool : WorkerPool) :
    poolBlocks p tns curr (dropIdlePool pool) = poolBlocks p tns curr pool := by
  simp only [poolBlocks, dropIdlePool]
  exact blocks_filterIdle p tns curr pool.id pool.workers

theorem poolsBlocks_map (p : WqProg) (tns : Nat) (curr : Task)
    (pools : List WorkerPool) :
    ((pools.map dropIdlePool).flatMap (poolBlocks p tns curr)) =
      pools.flatMap (poolBlocks p tns curr) := by
  induction pools with
  | nil => rfl
  | cons pool rest ih => simp [poolBlocks_dropIdle, ih]

theorem cpuBlocks_dropIdle (p : WqProg) (tns : Nat) (c : CpuState) :
    cpuBlocks p tns (dropIdleCpu c) = cpuBlocks p tns c := by
  simp only [cpuBlocks, dropIdleCpu]
  exact poolsBlocks_map p tns c.curr c.pools

theorem cpusBlocks_map (p : WqProg) (tns : Nat) (cpus : List CpuState) :
    ((cpus.map dropIdleCpu).flatMap (cpuBlocks p tns)) =
      cpus.flatMap (cpuBlocks p tns) := by
  induction cpus with
  | nil => rfl
  | cons c rest ih => simp [cpuBlocks_dropIdle, ih]

/-! ## Concrete program states used as witnesses -/

/-- A sample task currently running on CPU 0. -/
def cexCurr : Task :=
  { pid := 1, addr := 8192, comm := "systemd", prio := 120, cpu := 0,
    runtime := 1000 }

/-- A worker task whose runtime is exactly 5 seconds in nanoseconds. -/
def cexTask : Task :=
  { pid := 77, addr := 4096, comm := "kworker/0:1", prio := 120, cpu := 0,
    runtime := 5000000000 }

/-- A busy worker whose runtime exactly equals the 5-second threshold. -/
def cexWorker : Worker :=
  { current_work := 256, current_func := 512, current_pwq := none,
    task := cexTask }

/-- A program with `wq_watchdog_thresh = 5` and one worker at exactly the
threshold. -/
def cexProg : WqProg :=
  { wq_watchdog_thresh := some 5, symbolName := fun _ => none,
    cpus := [{ cpu := 0, curr := cexCurr, pools := [{ id := 3, workers := [cexWorker] }] }] }

/-- A program whose `wq_watchdog_thresh` symbol is absent. -/
def wdProg : WqProg :=
  { wq_watchdog_thresh := none, symbolName := fun _ => none, cpus := [] }

/-- A stuck worker whose `current_pwq` pointer is NULL. -/
def pwqW : Worker :=
  { current_work := 64, current_func := 128, current_pwq := none,
    task := { pid := 9, addr := 11, comm := "kworker/1:2", prio := 120,
              cpu := 1, runtime := 7 } }

/-! ## Claim theorems for the workqueue lockup scanner -/

/-- C1 (counterexample): in `cexProg` the watchdog threshold is 5 s =
5000000000 ns, the single busy worker's runtime is exactly equal to it, and
the scan nevertheless prints one diagnostic block — refuting the claim that
a worker whose runtime exactly equals the threshold is not reported (the
source uses `runtime < thresh_ns: continue`, i.e. reports on `>=`). -/
theorem workqueue_equal_runtime_reported_cex :
    wqThreshNs cexProg = 5000000000 ∧
    cexWorker.task.runtime = 5000000000 ∧
    numDiagBlocks (scan_workqueue_lockup cexProg) = 1 := by
  refine ⟨rfl, rfl, ?_⟩
  decide

/-- C1 (amended): a worker with a current work item is reported if and only
if its current-work runtime is greater than **or equal to** the watchdog
threshold in nanoseconds: the number of diagnostic blocks equals the number
of workers with a non-NULL work item and `thresh_ns ≤ runtime`. -/
theorem workqueue_report_comparison_ge (p : WqProg) :
    numDiagBlocks (scan_workqueue_lockup p) =
      (allWorkers p).countP
        (fun w => decide (w.current_work ≠ 0) &&
          decide (wqThreshNs p ≤ w.task.runtime)) :=
  numDiagBlocks_scan p

/-- C5: every run of the scan prints exactly one summary line, it is the
last line of the output, it is the "not detected" line exactly when zero
diagnostic blocks were printed, and otherwise it states the exact number N
of diagnostic blocks printed before it. -/
theorem workqueue_summary_structure (p : WqProg) :
    numSummaries (scan_workqueue_lockup p) = 1 ∧
    (scan_workqueue_lockup p).getLast? =
      some
        (if numDiagBlocks (scan_workqueue_lockup p) = 0 then
          Line.summaryNotDetected
         else Line.summaryDetected (numDiagBlocks (scan_workqueue_lockup p))) := by
  refine ⟨numSummaries_scan p, ?_⟩
  rw [numDiagBlocks_scan]
  exact scan_getLast p

/-- C6: when the `wq_watchdog_thresh` symbol is absent, the scan reports a
threshold of exactly 30 seconds, behaves identically to a program whose
symbol is present with value 30, and compares runtimes against
30 * 10^9 ns. -/
theorem workqueue_watchdog_defaults_thirty (p : WqProg)
    (h : p.wq_watchdog_thresh = none) :
    (scan_workqueue_lockup p).head? = some (Line.threshHeader 30) ∧
    scan_workqueue_lockup p =
      scan_workqueue_lockup { p with wq_watchdog_thresh := some 30 } ∧
    numDiagBlocks (scan_workqueue_lockup p) =
      (allWorkers p).countP (triggers (30 * 1000000000)) := by
  have hts : get_watchdog_thresh_seconds p = 30 := by
    simp [get_watchdog_thresh_seconds, h]
  have hw : wqThreshNs p = 30 * 1000000000 := by rw [wqThreshNs, hts]
  refine ⟨?_, ?_, ?_⟩
  · rw [scan_head, hts]
  · have hg : get_watchdog_thresh_seconds
        { p with wq_watchdog_thresh := some 30 } = 30 := rfl
    have hw2 : wqThreshNs { p with wq_watchdog_thresh := some 30 } =
        30 * 1000000000 := rfl
    rw [scan_eq, scan_eq, hts, hg, hw, hw2]
    rfl
  · rw [numDiagBlocks_scan, hw]

/-- C6 witness: on a concrete program missing the symbol, the first output
line reports a 30-second threshold. -/
theorem workqueue_watchdog_defaults_thirty_witness :
    (scan_workqueue_lockup wdProg).head? = some (Line.threshHeader 30) :=
  (workqueue_watchdog_defaults_thirty wdProg rfl).1

/-- C8: the scan output is unchanged when every worker whose
`current_work` pointer is NULL is removed beforehand: an idle worker is
never reported and never counted, regardless of its task's runtime. -/
theorem workqueue_idle_never_reported (p : WqProg) :
    scan_workqueue_lockup p = scan_workqueue_lockup (removeIdle p) := by
  rw [scan_eq, scan_eq]
  have h0 : get_watchdog_thresh_seconds (removeIdle p) =
      get_watchdog_thresh_seconds p := rfl
  have h1 : wqThreshNs (removeIdle p) = wqThreshNs p := rfl
  have h2 : (allWorkers (removeIdle p)).countP (triggers (wqThreshNs p)) =
      (allWorkers p).countP (triggers (wqThreshNs p)) := by
    show (((p.cpus.map dropIdleCpu).flatMap cpuWorkers).countP
      (triggers (wqThreshNs p))) = _
    exact countP_workers_cpus_dropIdle _ _
  have h3 : allBlocks (removeIdle p) (wqThreshNs p) =
      allBlocks p (wqThreshNs p) := by
    show ((p.cpus.map dropIdleCpu).flatMap
      (cpuBlocks (removeIdle p) (wqThreshNs p))) = _
    have hcb : cpuBlocks (removeIdle p) = cpuBlocks p := rfl
    rw [hcb]
    exact cpusBlocks_map _ _ _
  rw [h0, h1, h2, h3]

/-- C9: a stuck worker whose `current_pwq` pointer is NULL still gets a
full diagnostic block, with workqueue name "unknown" and pwq address 0, and
processing simply continues with the remaining workers of the pool with the
lockup count incremented. -/
theorem workqueue_null_pwq_unknown (p : WqProg) (tns : Nat) (curr : Task)
    (poolId : Nat) (acc : Nat × List Line) (w : Worker) (rest : List Worker)
    (hpwq : w.current_pwq = none) (hwork : w.current_work ≠ 0)
    (hrun : tns ≤ w.task.runtime) :
    workerBlock p curr poolId w =
      [Line.blockHeader w.task.cpu poolId "unknown" 0,
       print_cpu_current_task curr,
       Line.blank,
       Line.currentWorkerTask w.task.pid w.task.addr w.task.prio
         (task_sched_class w.task) w.task.comm,
       Line.workLine w.current_work (current_work_func_name p w),
       Line.runtimeLine w.task.runtime,
       Line.calltraceHeader,
       Line.backtrace w.task.addr,
       Line.blank] ∧
    (w :: rest).foldl (processWorker p tns curr poolId) acc =
      rest.foldl (processWorker p tns curr poolId)
        (acc.1 + 1, acc.2 ++ workerBlock p curr poolId w) := by
  constructor
  · simp [workerBlock, hpwq]
  · rw [List.foldl_cons]
    congr 1
    simp [processWorker, hwork, Nat.not_lt.mpr hrun]

/-- C9 witness: concrete instance of the NULL-pwq block shape. -/
theorem workqueue_null_pwq_unknown_witness :
    (workerBlock wdProg cexCurr 2 pwqW).head? =
      some (Line.blockHeader 1 2 "unknown" 0) := by
  have h := workqueue_null_pwq_unknown wdProg 5 cexCurr 2 (0, []) pwqW []
    rfl (by decide) (by decide)
  rw [h.1]
  rfl

/-! ## Data model for `inflightio.py` -/

/-- A block request snapshot: its pointer value, the resolved target device
(`request_target(rq).value_()`), and the display fields the row prints
(`show_rq_issued_cpu`, `rq_op`, `rq_flags`, `rq.__sector`,
`rq.__data_len`, `rq_pending_time_ns`). -/
structure Rq where
  addr : Nat
  target : Nat
  cpu : String
  op : String
  flags : String
  sector : Nat
  data_len : Nat
  pending_ns : Nat
  deriving Repr, DecidableEq

/-- A multi-queue hardware queue: pointer value and `flags` word. -/
structure Hwq where
  addr : Nat
  flags : Nat
  deriving Repr, DecidableEq

/-- A request queue: its multi-queue pending (hardware-queue, request)
pairs (`for_each_mq_pending_request`) and its single-queue pending
requests (`for_each_sq_pending_request`). -/
structure Queue where
  mq_pending : List (Hwq × Rq)
  sq_pending : List Rq
  deriving Repr, DecidableEq

/-- A gendisk: name, pointer value (`disk.value_()`) and request queue. -/
structure Disk where
  disk_name : String
  addr : Nat
  queue : Queue
  deriving Repr, DecidableEq

/-- An NVMe controller.  `admin_q` is always a field (`none` = NULL
pointer).  `connect_q` and `fabrics_q` are kernel-version dependent: the
outer `Option` is `has_member` (field existence on this build), the inner
one is pointer non-nullness. -/
structure NvmeCtrl where
  instanceNo : Nat
  admin_q : Option Queue
  connect_q : Option (Option Queue)
  fabrics_q : Option (Option Queue)
  deriving Repr, DecidableEq

/-- The program state the I/O reporter consumes: the kernel constant table
(`prog.constant`, `none` = `LookupError`), the disks (`for_each_disk`) and
the NVMe controllers (`for_each_nvme_ctrl`). -/
structure BlkProg where
  constants : String → Option Nat
  disks : List Disk
  ctrls : List NvmeCtrl

/-- One line of I/O-report output. -/
inductive BLine where
  | header
  | mqRow (device : String) (hwqAddr : Nat) (rqAddr : Nat) (cpu : String)
      (op : String) (flags : String) (sector : Nat) (dataLen : Nat)
      (pendingNs : Nat)
  | sqRow (device : String) (rqAddr : Nat) (op : String) (flags : String)
      (sector : Nat) (dataLen : Nat) (pendingNs : Nat)
  deriving Repr, DecidableEq

/-- The two-line record printed for one multi-queue pending request (the
same format string is used for disk rows and NVMe management-queue rows). -/
def mkMqRow (name : String) (pr : Hwq × Rq) : BLine :=
  BLine.mqRow name pr.1.addr pr.2.addr pr.2.cpu pr.2.op pr.2.flags
    pr.2.sector pr.2.data_len pr.2.pending_ns

/-- The record printed for one single-queue pending request ("-"
placeholders stand in for the hwq address and CPU columns). -/
def mkSqRow (name : String) (rq : Rq) : BLine :=
  BLine.sqRow name rq.addr rq.op rq.flags rq.sector rq.data_len
    rq.pending_ns

/-- The queue selection of `dump_nvme_mgmt_inflight_io`'s `if`/`elif`
chain: "admin" requires a non-NULL `admin_q`; "connect" requires the
`connect_q` field to exist (v4.8+) and be non-NULL; "fabrics" requires the
`fabrics_q` field to exist (v5.4+) and be non-NULL.  When no branch
matches, the source hits `else: return`. -/
def selectQueue (ctrl : NvmeCtrl) (qtype : String) : Option (Queue × String) :=
  if qtype = "admin" then
    match ctrl.admin_q with
    | some q => some (q, "nvme" ++ toString ctrl.instanceNo ++ "-admin")
    | none => none
  else if qtype = "connect" then
    match ctrl.connect_q with
    | some (some q) => some (q, "nvme" ++ toString ctrl.instanceNo ++ "-connect")
    | _ => none
  else if qtype = "fabrics" then
    match ctrl.fabrics_q with
    | some (some q) => some (q, "nvme" ++ toString ctrl.instanceNo ++ "-fabrics")
    | _ => none
  else none

/-- The controller loop of `dump_nvme_mgmt_inflight_io`.  Note the `else`
branch of the source is `return`, not `continue`: a controller for which
no queue is selected terminates the whole function, so the remaining
controllers in enumeration order are never visited. -/
def nvme_mgmt_rows : List NvmeCtrl → String → List BLine
  | [], _ => []
  | ctrl :: rest, qtype =>
    match selectQueue ctrl qtype with
    | none => []
    | some (q, name) => q.mq_pending.map (mkMqRow name) ++ nvme_mgmt_rows rest qtype

/-- `dump_nvme_mgmt_inflight_io`: report the pending requests of every
NVMe controller's management queue of the requested type (subject to the
early `return` modelled in `nvme_mgmt_rows`). -/
def dump_nvme_mgmt_inflight_io (p : BlkProg) (qtype : String) : List BLine :=
  nvme_mgmt_rows p.ctrls qtype

/-- The constant resolution at the top of `dump_inflight_io`: try
`BLK_MQ_F_TAG_SHARED`, and on `LookupError` try
`BLK_MQ_F_TAG_QUEUE_SHARED`; `none` means the second lookup raised too. -/
def lookupTagShared (p : BlkProg) : Option Nat :=
  match p.constants "BLK_MQ_F_TAG_SHARED" with
  | some v => some v
  | none => p.constants "BLK_MQ_F_TAG_QUEUE_SHARED"

/-- The multi-queue rows printed for one disk: each snapshotted
(hwq, rq) pair yields a row unless the hwq is tag-shared and the request
resolves to a different gendisk (the `continue` that avoids
double-reporting requests of sibling disks sharing a hardware queue). -/
def mqRows (flag : Nat) (disk : Disk) : List BLine :=
  disk.queue.mq_pending.filterMap fun pr =>
    if (pr.1.flags &&& flag) ≠ 0 ∧ pr.2.target ≠ disk.addr then none
    else some (mkMqRow disk.disk_name pr)

/-- The single-queue rows printed for one disk (no filtering). -/
def sqRows (disk : Disk) : List BLine :=
  disk.queue.sq_pending.map (mkSqRow disk.disk_name)

/-- Result of a `dump_inflight_io` run: the lines printed, and whether the
run terminated by an uncaught `LookupError` from the constant resolution. -/
structure DumpOut where
  out : List BLine
  raised : Bool
  deriving Repr, DecidableEq

/-- `dump_inflight_io`: print the header; resolve the tag-shared flag
constant (raising after the header if both names fail); for each disk
matching the `diskname` filter print its multi-queue rows (tag-shared
filtered) then its single-queue rows; finally, when no filter was given,
run the NVMe management-queue report for "admin", "connect", "fabrics" in
that order. -/
def dump_inflight_io (p : BlkProg) (diskname : String) : DumpOut :=
  let headerOut : List BLine := [BLine.header]
  match lookupTagShared p with
  | none => { out := headerOut, raised := true }
  | some flag =>
    let diskPart := p.disks.flatMap fun disk =>
      if diskname ≠ "all" ∧ diskname ≠ disk.disk_name then []
      else mqRows flag disk ++ sqRows disk
    let nvmePart :=
      if diskname = "all" then
        dump_nvme_mgmt_inflight_io p "admin" ++
        dump_nvme_mgmt_inflight_io p "connect" ++
        dump_nvme_mgmt_inflight_io p "fabrics"
      else []
    { out := headerOut ++ diskPart ++ nvmePart, raised := false }

/-- The device name a printed line belongs to (`none` for the header). -/
def lineDevice : BLine → Option String
  | BLine.header => none
  | BLine.mqRow n _ _ _ _ _ _ _ _ => some n
  | BLine.sqRow n _ _ _ _ _ _ => some n

/-! ## Helper lemmas for the I/O reporter -/

theorem mem_mqRows_device (flag : Nat) (disk : Disk) (l : BLine)
    (hl : l ∈ mqRows flag disk) : lineDevice l = some disk.disk_name := by
  unfold mqRows at hl
  rw [List.mem_filterMap] at hl
  obtain ⟨pr, _, hpr⟩ := hl
  by_cases hc : (pr.1.flags &&& flag) ≠ 0 ∧ pr.2.target ≠ disk.addr
  · rw [if_pos hc] at hpr
    exact absurd hpr (by simp)
  · rw [if_neg hc] at hpr
    obtain rfl : mkMqRow disk.disk_name pr = l := by injection hpr
    rfl

theorem mem_sqRows_device (disk : Disk) (l : BLine)
    (hl : l ∈ sqRows disk) : lineDevice l = some disk.disk_name := by
  unfold sqRows at hl
  rw [List.mem_map] at hl
  obtain ⟨rq, _, rfl⟩ := hl
  rfl

/-! ## Claim theorems for the inflight I/O reporter -/

/-- C3: the multi-queue rows printed for a disk are exactly the rows of
those pending (hwq, rq) pairs that are NOT (tag-shared hwq with a request
targeting a different gendisk): a pair whose hardware queue has the shared
flag set and whose request resolves to another device contributes no row
to this device's row set. -/
theorem mq_tag_shared_filter (flag : Nat) (disk : Disk) :
    mqRows flag disk =
      (disk.queue.mq_pending.filter fun pr =>
        decide (¬((pr.1.flags &&& flag) ≠ 0 ∧ pr.2.target ≠ disk.addr))).map
        (mkMqRow disk.disk_name) := by
  unfold mqRows
  generalize disk.queue.mq_pending = l
  induction l with
  | nil => rfl
  | cons pr rest ih =>
    by_cases hc : (pr.1.flags &&& flag) ≠ 0 ∧ pr.2.target ≠ disk.addr
    · rw [List.filterMap_cons, List.filter_cons]
      simp [hc, ih]
    · rw [List.filterMap_cons, List.filter_cons]
      simp [hc, ih]

/-- C7: the run raises an uncaught lookup error if and only if both
constant names fail to resolve; when `BLK_MQ_F_TAG_SHARED` resolves its
value is used, and when only the fallback `BLK_MQ_F_TAG_QUEUE_SHARED`
resolves, the fallback's value is used. -/
theorem tag_shared_constant_fallback (p : BlkProg) (d : String) :
    ((dump_inflight_io p d).raised = true ↔
      (p.constants "BLK_MQ_F_TAG_SHARED" = none ∧
       p.constants "BLK_MQ_F_TAG_QUEUE_SHARED" = none)) ∧
    (∀ v, p.constants "BLK_MQ_F_TAG_SHARED" = some v →
      lookupTagShared p = some v) ∧
    (∀ v, p.constants "BLK_MQ_F_TAG_SHARED" = none →
      p.constants "BLK_MQ_F_TAG_QUEUE_SHARED" = some v →
      lookupTagShared p = some v) := by
  refine ⟨?_, ?_, ?_⟩
  · cases h1 : p.constants "BLK_MQ_F_TAG_SHARED" <;>
      cases h2 : p.constants "BLK_MQ_F_TAG_QUEUE_SHARED" <;>
      simp [dump_inflight_io, lookupTagShared, h1, h2]
  · intro v hv
    simp [lookupTagShared, hv]
  · intro v h1 h2
    simp [lookupTagShared, h1, h2]

/-- C10: the header line is printed before the constant resolution is
attempted, so on a run where both lookups fail the output consists of
exactly the already-emitted header, and the error flag is set. -/
theorem header_before_constant_lookup (p : BlkProg) (d : String)
    (h1 : p.constants "BLK_MQ_F_TAG_SHARED" = none)
    (h2 : p.constants "BLK_MQ_F_TAG_QUEUE_SHARED" = none) :
    dump_inflight_io p d = { out := [BLine.header], raised := true } := by
  simp [dump_inflight_io, lookupTagShared, h1, h2]

/-- C4: with a device-name filter other than "all", the run is identical
to a run with no NVMe controllers at all (the management-queue section is
never executed) and every printed line is the header or belongs to the
named device; with "all" (and a resolved flag constant), the output is the
header, all disks' rows, then the NVMe management-queue reports for
"admin", "connect", "fabrics" in that fixed order. -/
theorem diskname_filter_and_nvme (p : BlkProg) (d : String) :
    (d ≠ "all" →
      dump_inflight_io p d = dump_inflight_io { p with ctrls := [] } d ∧
      ∀ l ∈ (dump_inflight_io p d).out,
        l = BLine.header ∨ lineDevice l = some d) ∧
    (d = "all" → ∀ flag, lookupTagShared p = some flag →
      (dump_inflight_io p d).out =
        BLine.header ::
          (p.disks.flatMap (fun disk => mqRows flag disk ++ sqRows disk) ++
           (dump_nvme_mgmt_inflight_io p "admin" ++
            dump_nvme_mgmt_inflight_io p "connect" ++
            dump_nvme_mgmt_inflight_io p "fabrics"))) := by
  constructor
  · intro hd
    constructor
    · unfold dump_inflight_io
      have hlk : lookupTagShared { p with ctrls := [] } = lookupTagShared p :=
        rfl
      rw [hlk]
      cases h : lookupTagShared p
      · rfl
      · simp only [if_neg hd]
    · intro l hl
      unfold dump_inflight_io at hl
      cases h : lookupTagShared p <;> rw [h] at hl
      · simp at hl
        exact Or.inl hl
      · simp only [List.cons_append, List.nil_append, if_neg hd,
          List.append_nil, List.mem_cons] at hl
        rcases hl with hl | hl
        · exact Or.inl hl
        · rw [List.mem_flatMap] at hl
          obtain ⟨disk, _, hmem⟩ := hl
          by_cases hn : d = disk.disk_name
          · rw [if_neg (by simp [hn])] at hmem
            rw [List.mem_append] at hmem
            rcases hmem with hmem | hmem
            · exact Or.inr (by rw [mem_mqRows_device _ _ _ hmem, hn])
            · exact Or.inr (by rw [mem_sqRows_device _ _ hmem, hn])
          · rw [if_pos ⟨hd, hn⟩] at hmem
            exact absurd hmem (by simp)
  · intro hd flag hflag
    subst hd
    unfold dump_inflight_io
    rw [hflag]
    simp

/-! ## Concrete block-layer states used as witnesses -/

/-- A sample pending request. -/
def rq1 : Rq :=
  { addr := 200, target := 300, cpu := "3", op := "READ", flags := "0x0",
    sector := 8, data_len := 4096, pending_ns := 555 }

/-- A sample hardware queue with no flags set. -/
def hwq1 : Hwq := { addr := 100, flags := 0 }

/-- A sample disk whose single mq pending request targets itself. -/
def diskA : Disk :=
  { disk_name := "sda", addr := 300,
    queue := { mq_pending := [(hwq1, rq1)], sq_pending := [] } }

/-- An empty request queue. -/
def emptyQ : Queue := { mq_pending := [], sq_pending := [] }

/-- A connect queue holding one pending request. -/
def qConn : Queue := { mq_pending := [(hwq1, rq1)], sq_pending := [] }

/-- An old-kernel controller: the `connect_q` field does not exist. -/
def ctrlOld : NvmeCtrl :=
  { instanceNo := 0, admin_q := some emptyQ, connect_q := none,
    fabrics_q := none }

/-- A fabrics controller with one pending connect-queue request. -/
def ctrlNew : NvmeCtrl :=
  { instanceNo := 1, admin_q := some emptyQ,
    connect_q := some (some qConn), fabrics_q := none }

/-- Controllers enumerated with the old-kernel controller first. -/
def pBug : BlkProg :=
  { constants := fun _ => some 1, disks := [], ctrls := [ctrlOld, ctrlNew] }

/-- The fabrics controller enumerated alone. -/
def pNew : BlkProg :=
  { constants := fun _ => some 1, disks := [], ctrls := [ctrlNew] }

/-- A program resolving the first constant name only. -/
def pB : BlkProg :=
  { constants := fun s => if s = "BLK_MQ_F_TAG_SHARED" then some 1 else none,
    disks := [diskA], ctrls := [ctrlNew] }

/-- A program resolving the fallback constant name only. -/
def pB2 : BlkProg :=
  { constants :=
      fun s => if s = "BLK_MQ_F_TAG_QUEUE_SHARED" then some 2 else none,
    disks := [diskA], ctrls := [ctrlNew] }

/-- A program resolving neither constant name. -/
def pAbsent : BlkProg :=
  { constants := fun _ => none, disks := [diskA], ctrls := [ctrlNew] }

/-- C2 (evaluation of the code at the failing input): with the old-kernel
controller (lacking `connect_q`) enumerated before a controller that has a
non-null connect queue holding one pending request, the connect-queue
report prints nothing at all — the `else: return` leaves the loop at the
first controller — whereas the second controller alone yields its row. -/
theorem nvme_mgmt_connect_abort_bug :
    dump_nvme_mgmt_inflight_io pBug "connect" = [] ∧
    dump_nvme_mgmt_inflight_io pNew "connect" =
      [BLine.mqRow "nvme1-connect" 100 200 "3" "READ" "0x0" 8 4096 555] := by
  constructor <;> rfl

/-- C7 witness: concrete runs exercising all three conjuncts. -/
theorem tag_shared_constant_fallback_witness :
    lookupTagShared pB = some 1 ∧ lookupTagShared pB2 = some 2 ∧
    (dump_inflight_io pAbsent "all").raised = true :=
  ⟨(tag_shared_constant_fallback pB "all").2.1 1 rfl,
   (tag_shared_constant_fallback pB2 "all").2.2 2 rfl rfl,
   (tag_shared_constant_fallback pAbsent "all").1.mpr ⟨rfl, rfl⟩⟩

/-- C10 witness: the failing run on a concrete program has emitted exactly
the header. -/
theorem header_before_constant_lookup_witness :
    dump_inflight_io pAbsent "all" = { out := [BLine.header], raised := true } :=
  header_before_constant_lookup pAbsent "all" rfl rfl

/-- C4 witness: a concrete filtered run is controller-independent, and a
concrete unfiltered run ends with the three NVMe reports in order. -/
theorem diskname_filter_and_nvme_witness :
    dump_inflight_io pB "sda" = dump_inflight_io { pB with ctrls := [] } "sda" ∧
    (dump_inflight_io pB "all").out =
      BLine.header ::
        (pB.disks.flatMap (fun disk => mqRows 1 disk ++ sqRows disk) ++
         (dump_nvme_mgmt_inflight_io pB "admin" ++
          dump_nvme_mgmt_inflight_io pB "connect" ++
          dump_nvme_mgmt_inflight_io pB "fabrics")) := by
  constructor
  · exact ((diskname_filter_and_nvme pB "sda").1 (by decide)).1
  · exact (diskname_filter_and_nvme pB "all").2 rfl 1 rfl
